import Mathlib

/-!
Shallow embedding of the threading module of lua-apr (src/thread.c) and
verification of its specified properties.

The embedding mirrors `src/thread.c`. APR primitives (`apr_thread_join`,
`apr_thread_detach`, `apr_pool_create`, `apr_threadattr_create`,
`apr_thread_create`) are fallible system calls; each embedded operation takes
the status such a primitive would report as an explicit argument and records
whether the primitive was invoked, so that theorems quantify over every
possible outcome of the system.
-/

/-- APR status codes; `0` is `APR_SUCCESS`. -/
abbrev apr_status_t := Nat

/-- The `APR_SUCCESS` status of APR. -/
def APR_SUCCESS : apr_status_t := 0

/-- The `APR_ENOMEM` status, the status `lua_apr_thread` starts from (src/thread.c:179). -/
def APR_ENOMEM : apr_status_t := 12

/-- Lua values that cross the thread boundary (the serializable fragment
relevant to the claims: nil, booleans, numbers, strings). -/
inductive LuaVal
  | vnil
  | boolean (b : Bool)
  | num (n : Int)
  | str (s : String)
deriving DecidableEq, Repr

/-- The `status` enum of a thread object, from src/thread.c:49. -/
inductive thread_status_t
  | TS_INIT
  | TS_RUNNING
  | TS_DONE
  | TS_ERROR
  | TS_DETACH
deriving DecidableEq, Repr

open thread_status_t

/-- The contents of the `output` buffer (`char *output` in
`lua_apr_thread_object`): either a plain C string written with `strdup`
(an error message), or the buffer produced by `lua_apr_serialize`.

Modelled from the spec: the serialization service itself is not under
src/ (it is an external collaborator); the spec requires only that
`deserialize(serialize(P)) == P`, so the serialized buffer is modelled as
carrying the value list it round-trips to. -/
inductive CBuffer
  | errmsg (s : String)
  | serialized (vs : List LuaVal)
deriving DecidableEq, Repr

/-- Modelled from the spec: `lua_apr_serialize` of the serialization service
(not under src/), which converts a tuple of values into a self-contained
buffer satisfying the round-trip law. -/
def lua_apr_serialize (vs : List LuaVal) : CBuffer :=
  CBuffer.serialized vs

/-- Modelled from the spec: `lua_apr_unserialize` of the serialization
service (not under src/). On a buffer produced by `lua_apr_serialize` it
returns the original values (round-trip law). Its behaviour on a raw error
string is never exercised by src/thread.c, which only unserializes the
output of a thread whose status is `TS_DONE`. -/
def lua_apr_unserialize : CBuffer → List LuaVal
  | CBuffer.serialized vs => vs
  | CBuffer.errmsg s => [LuaVal.str s]

/-- The bytes of the buffer viewed as a C string, as `lua_pushstring(L,
object->output)` does on the non-`TS_DONE` branch of `thread_join`. For a
serialized buffer the concrete byte rendering is irrelevant to the claims;
an injective printer stands for it. -/
def CBuffer.asCStr : CBuffer → String
  | CBuffer.errmsg s => s
  | CBuffer.serialized vs => toString (repr vs)

/-- Behaviour of `lua_pushstring` on the (possibly NULL) output field: pushing a NULL
`char*` pushes nil in Lua 5.1. -/
def pushOutput : Option CBuffer → LuaVal
  | none => LuaVal.vnil
  | some b => LuaVal.str b.asCStr

/-- The thread object `lua_apr_thread_object` (src/thread.c:51-60), restricted
to the fields the claims are about: the lifecycle `status`, the serialized
`input`, the `output` buffer (NULL until the worker writes it), and the
`joined` flag. The refcount header and APR pool/attr pointers carry no
logical state beyond allocation, which the spawn model tracks separately. -/
structure lua_apr_thread_object where
  status : thread_status_t
  input : List LuaVal
  output : Option CBuffer
  joined : Bool
deriving DecidableEq, Repr

/-- The array `status_names` from src/thread.c:41. -/
def status_names : List String :=
  ["init", "running", "done", "error", "detach"]

/-- Index of a status value into `status_names`, as the C enum value. -/
def thread_status_t.idx : thread_status_t → Nat
  | TS_INIT => 0
  | TS_RUNNING => 1
  | TS_DONE => 2
  | TS_ERROR => 3
  | TS_DETACH => 4

/-- Model of `thread_status` (src/thread.c:292-300): push
`status_names[object->status]`. -/
def thread_status (object : lua_apr_thread_object) : String :=
  status_names.getD object.status.idx ""

/-- Result of a Lua-facing call: either pushed values, or the
`push_error_status` path, which pushes nil followed by the message for the
given APR status code. -/
inductive LuaResult
  | values (vs : List LuaVal)
  | error_status (status : apr_status_t)
deriving DecidableEq, Repr

/-- The values `thread_join` pushes once the handle is (already) joined
(src/thread.c:270-278): on `TS_DONE`, boolean true followed by the
unserialized output; otherwise boolean false followed by the output bytes as
a string. -/
def joinResults (object : lua_apr_thread_object) : List LuaVal :=
  if object.status = TS_DONE then
    LuaVal.boolean true ::
      (match object.output with
       | some b => lua_apr_unserialize b
       | none => [LuaVal.vnil])
  else
    [LuaVal.boolean false, pushOutput object.output]

/-- Model of `thread_join` (src/thread.c:254-281). `waitStatus` is what
`apr_thread_join` would report if invoked. Returns the updated object,
whether the wait primitive was invoked, and the Lua-level result. -/
def thread_join (waitStatus : apr_status_t) (object : lua_apr_thread_object) :
    lua_apr_thread_object × Bool × LuaResult :=
  if object.joined then
    (object, false, LuaResult.values (joinResults object))
  else if waitStatus ≠ APR_SUCCESS then
    (object, true, LuaResult.error_status waitStatus)
  else
    let object1 := { object with joined := true }
    (object1, true, LuaResult.values (joinResults object1))

/-- Model of `thread_detach` (src/thread.c:310-322). `detachStatus` is what
`apr_thread_detach` reports. On success the status field is set to
`TS_DETACH` and boolean true is pushed; on failure `push_error_status` runs
and the object is untouched. -/
def thread_detach (detachStatus : apr_status_t) (object : lua_apr_thread_object) :
    lua_apr_thread_object × LuaResult :=
  if detachStatus = APR_SUCCESS then
    ({ object with status := TS_DETACH }, LuaResult.values [LuaVal.boolean true])
  else
    (object, LuaResult.error_status detachStatus)

/-- Events of the worker thread `thread_runner`, in program order: creation
and configuration of the fresh Lua state, decoding of the input, the
optional recompilation of a source-text function, writes to the shared
`status` field and the `output` buffer, the invocation of the thread
function, the teardown of the state, and the native thread exit. -/
inductive REvent
  | createState
  | openLibs
  | setConfig
  | unserializeInput
  | compile
  | setStatus (s : thread_status_t)
  | writeOutput
  | invoke
  | closeState
  | threadExit (status : apr_status_t)
deriving DecidableEq, Repr

/-- Environment of one `thread_runner` execution: whether `luaL_newstate`
succeeds, the outcome of `luaL_loadbuffer` when the first input value is a
string (`none` = compiled, `some e` = compiler diagnostic `e`), and the
outcome of `lua_pcall` (error message, or the values the thread function
returned). -/
structure RunnerEnv where
  newstateOk : Bool
  compileResult : Option String
  callResult : Except String (List LuaVal)
deriving Repr

/-- The events of src/thread.c:109-127 on the successful `luaL_newstate`
path, in program order: `luaL_newstate`, `luaL_openlibs`, applying
`package.config/path/cpath` from the parent state, and unserializing the
input (thread function and arguments). -/
def runnerSetupEvents : List REvent :=
  [REvent.createState, REvent.openLibs, REvent.setConfig,
   REvent.unserializeInput]

/-- The tail of `thread_runner` from src/thread.c:143-153 (reached with the
local `status` not `TS_ERROR`): write `TS_RUNNING` to the shared status
field, run `lua_pcall`; on failure strdup the error message into `output`
(local status `TS_ERROR`), on success serialize the results from stack
index 2 into `output` (local status `TS_DONE`); then `lua_close`, the final
store of the local status into the shared field (src/thread.c:157), and
`apr_thread_exit(handle, APR_SUCCESS)` (src/thread.c:159). -/
def runnerCall (env : RunnerEnv) (thread : lua_apr_thread_object)
    (evs : List REvent) : lua_apr_thread_object × List REvent :=
  match env.callResult with
  | Except.error msg =>
      ({ thread with status := TS_ERROR, output := some (CBuffer.errmsg msg) },
       evs ++ [REvent.setStatus TS_RUNNING, REvent.invoke, REvent.writeOutput,
               REvent.closeState, REvent.setStatus TS_ERROR,
               REvent.threadExit APR_SUCCESS])
  | Except.ok results =>
      ({ thread with status := TS_DONE, output := some (lua_apr_serialize results) },
       evs ++ [REvent.setStatus TS_RUNNING, REvent.invoke, REvent.writeOutput,
               REvent.closeState, REvent.setStatus TS_DONE,
               REvent.threadExit APR_SUCCESS])

/-- Model of `thread_runner` (src/thread.c:98-163). Returns the thread object as the
worker leaves it and the trace of events in the order the worker performs
them. If `luaL_newstate` fails, output is the fixed message and the final
status `TS_ERROR`. Otherwise the state is configured, the input
unserialized, and — when the first input value is a string (a function
that was serialized as source text) — recompiled; a compile failure stores
the diagnostic and ends with `TS_ERROR`, else the call proceeds via
`runnerCall`. Every path ends with `apr_thread_exit(handle, APR_SUCCESS)`. -/
def thread_runner (env : RunnerEnv) (thread : lua_apr_thread_object) :
    lua_apr_thread_object × List REvent :=
  if env.newstateOk then
    let evs0 : List REvent := runnerSetupEvents
    match thread.input with
    | LuaVal.str _ :: _ =>
        (match env.compileResult with
         | some diag =>
             ({ thread with status := TS_ERROR,
                            output := some (CBuffer.errmsg diag) },
              evs0 ++ [REvent.compile, REvent.writeOutput, REvent.closeState,
                       REvent.setStatus TS_ERROR,
                       REvent.threadExit APR_SUCCESS])
         | none => runnerCall env thread (evs0 ++ [REvent.compile]))
    | _ => runnerCall env thread evs0
  else
    ({ thread with status := TS_ERROR,
                   output := some (CBuffer.errmsg "Failed to create Lua state") },
     [REvent.writeOutput, REvent.setStatus TS_ERROR,
      REvent.threadExit APR_SUCCESS])

/-- Environment of one `lua_apr_thread` (spawn) call: whether serialization
of the function and arguments succeeds (modelled from the spec: the
serialization service is not under src/; the spec surfaces its failure to
the caller of spawn), whether `new_object` returns a handle, and the
statuses `apr_pool_create`, `apr_threadattr_create` and `apr_thread_create`
report. -/
structure SpawnEnv where
  serializeOk : Bool
  allocOk : Bool
  poolStatus : apr_status_t
  attrStatus : apr_status_t
  createStatus : apr_status_t
deriving DecidableEq, Repr

/-- Modelled from the spec: the status code a serialization failure is
reported with (`SerializationError`, surfaced to the caller of spawn). -/
def SERIALIZE_FAILED : apr_status_t := 22

/-- Outcome of `lua_apr_thread`: the Lua-level result (a thread handle, or
nil plus an error message for an APR status), whether a handle object was
allocated by `new_object`, and whether `thread_destroy` released it. -/
structure SpawnOutcome where
  result : Except apr_status_t lua_apr_thread_object
  allocated : Bool
  destroyed : Bool
deriving Repr

/-- Model of `lua_apr_thread` (src/thread.c:176-230). Serializes the function and
arguments, allocates the handle with status `TS_INIT`, creates the memory
pool, copies the serialized input into it, creates the thread attributes
and the native thread. On any failure control reaches the `fail` label:
`thread_destroy` runs when a handle was allocated, and
`push_error_status` reports the prevailing status (`APR_ENOMEM` when
`new_object` returned NULL). -/
def lua_apr_thread (env : SpawnEnv) (args : List LuaVal) : SpawnOutcome :=
  if ¬ env.serializeOk then
    { result := Except.error SERIALIZE_FAILED, allocated := false,
      destroyed := false }
  else if ¬ env.allocOk then
    { result := Except.error APR_ENOMEM, allocated := false,
      destroyed := false }
  else if env.poolStatus ≠ APR_SUCCESS then
    { result := Except.error env.poolStatus, allocated := true,
      destroyed := true }
  else if env.attrStatus ≠ APR_SUCCESS then
    { result := Except.error env.attrStatus, allocated := true,
      destroyed := true }
  else if env.createStatus ≠ APR_SUCCESS then
    { result := Except.error env.createStatus, allocated := true,
      destroyed := true }
  else
    { result := Except.ok
        { status := TS_INIT, input := args, output := none, joined := false },
      allocated := true, destroyed := false }

/-- Events of the `__gc` finalizer `thread_gc`, in program order. -/
inductive GcEvent
  | logImplicitJoin
  | logDetachOutput (output : Option CBuffer)
  | waitThread
  | logJoinFailed (status : apr_status_t)
  | logWorkerError (output : Option CBuffer)
  | destroy
deriving DecidableEq, Repr

/-- Model of `thread_gc` (src/thread.c:337-361). If the handle was never joined, it
logs the implicit-join diagnostic; a `TS_DETACH` handle is not waited on —
only its recorded output is logged — while any other unjoined handle is
joined with `apr_thread_join` (logging the failure, or the worker's error
when the joined thread ended in `TS_ERROR`). In every case `thread_destroy`
releases the handle last. -/
def thread_gc (waitStatus : apr_status_t) (thread : lua_apr_thread_object) :
    List GcEvent :=
  if thread.joined then
    [GcEvent.destroy]
  else if thread.status = TS_DETACH then
    [GcEvent.logImplicitJoin, GcEvent.logDetachOutput thread.output,
     GcEvent.destroy]
  else if waitStatus ≠ APR_SUCCESS then
    [GcEvent.logImplicitJoin, GcEvent.waitThread,
     GcEvent.logJoinFailed waitStatus, GcEvent.destroy]
  else if thread.status = TS_ERROR then
    [GcEvent.logImplicitJoin, GcEvent.waitThread,
     GcEvent.logWorkerError thread.output, GcEvent.destroy]
  else
    [GcEvent.logImplicitJoin, GcEvent.waitThread, GcEvent.destroy]

/-- A fresh handle as `lua_apr_thread` returns it, used as concrete input. -/
def spawnedThread : lua_apr_thread_object :=
  { status := TS_INIT, input := [], output := none, joined := false }

/-- A handle whose worker finished successfully with results 1, "two", true. -/
def doneThread : lua_apr_thread_object :=
  { status := TS_DONE, input := [],
    output := some (lua_apr_serialize
      [LuaVal.num 1, LuaVal.str "two", LuaVal.boolean true]),
    joined := false }

/-- A handle whose worker ended in `TS_ERROR` with message "boom". -/
def errorThread : lua_apr_thread_object :=
  { status := TS_ERROR, input := [],
    output := some (CBuffer.errmsg "boom"), joined := false }

/-- A handle that was detached and not joined. -/
def detachedThread : lua_apr_thread_object :=
  { status := TS_DETACH, input := [], output := none, joined := false }

/-- C1: once `join()` gets past the wait (the handle was already joined, or
`apr_thread_join` reports success), a `TS_DONE` handle yields boolean true
followed by the values unserialized from the output buffer, and any other
status yields boolean false followed by the error message stored in the
output buffer. -/
theorem thread_join_outcome (waitStatus : apr_status_t)
    (object : lua_apr_thread_object)
    (hw : object.joined = true ∨ waitStatus = APR_SUCCESS) :
    (object.status = TS_DONE →
      ∀ vs, object.output = some (lua_apr_serialize vs) →
        (thread_join waitStatus object).2.2 =
          LuaResult.values (LuaVal.boolean true :: vs)) ∧
    (object.status ≠ TS_DONE →
      ∀ msg, object.output = some (CBuffer.errmsg msg) →
        (thread_join waitStatus object).2.2 =
          LuaResult.values [LuaVal.boolean false, LuaVal.str msg]) := by
  constructor
  · intro hs vs hout
    rcases hw with hj | hw
    · simp [thread_join, hj, joinResults, hs, hout, lua_apr_serialize,
        lua_apr_unserialize]
    · by_cases hj : object.joined
      · simp [thread_join, hj, joinResults, hs, hout, lua_apr_serialize,
          lua_apr_unserialize]
      · simp [thread_join, hj, hw, joinResults, hs, hout, lua_apr_serialize,
          lua_apr_unserialize]
  · intro hs msg hout
    rcases hw with hj | hw
    · simp [thread_join, hj, joinResults, hs, hout, pushOutput, CBuffer.asCStr]
    · by_cases hj : object.joined
      · simp [thread_join, hj, joinResults, hs, hout, pushOutput, CBuffer.asCStr]
      · simp [thread_join, hj, hw, joinResults, hs, hout, pushOutput,
          CBuffer.asCStr]

/-- C1 witness: joining a finished thread that returned (1, "two", true)
yields exactly (true, 1, "two", true). -/
theorem thread_join_outcome_witness :
    (thread_join APR_SUCCESS doneThread).2.2 =
      LuaResult.values [LuaVal.boolean true, LuaVal.num 1, LuaVal.str "two",
        LuaVal.boolean true] :=
  (thread_join_outcome APR_SUCCESS doneThread (Or.inr rfl)).1 rfl
    [LuaVal.num 1, LuaVal.str "two", LuaVal.boolean true] rfl

/-- C2: a successful `join()` on an unjoined handle flips `joined` from
false to true and invokes the wait primitive; any second `join()` on the
resulting handle leaves it unchanged, does not invoke the wait primitive,
and returns the identical cached outcome. -/
theorem thread_join_once (waitStatus waitStatus2 : apr_status_t)
    (object : lua_apr_thread_object)
    (hj : object.joined = false) (hw : waitStatus = APR_SUCCESS) :
    ((thread_join waitStatus object).1.joined = true ∧
     (thread_join waitStatus object).2.1 = true) ∧
    thread_join waitStatus2 (thread_join waitStatus object).1 =
      ((thread_join waitStatus object).1, false,
       (thread_join waitStatus object).2.2) := by
  subst hw
  constructor
  · constructor
    · simp [thread_join, hj]
    · simp [thread_join, hj]
  · simp [thread_join, hj]

/-- C2 witness: joining a fresh finished handle succeeds, and a second join
with a failing wait status still returns the cached outcome unchanged. -/
theorem thread_join_once_witness :
    ((thread_join APR_SUCCESS doneThread).1.joined = true ∧
     (thread_join APR_SUCCESS doneThread).2.1 = true) ∧
    thread_join 7 (thread_join APR_SUCCESS doneThread).1 =
      ((thread_join APR_SUCCESS doneThread).1, false,
       (thread_join APR_SUCCESS doneThread).2.2) :=
  thread_join_once APR_SUCCESS 7 doneThread rfl rfl

/-- C10: when the wait primitive fails, `join()` reports the error status,
the handle is unchanged (in particular `joined` stays false), and a later
`join()` invokes the wait primitive again instead of serving a cache. -/
theorem thread_join_fail_retries (waitStatus : apr_status_t)
    (object : lua_apr_thread_object)
    (hj : object.joined = false) (hw : waitStatus ≠ APR_SUCCESS) :
    thread_join waitStatus object =
      (object, true, LuaResult.error_status waitStatus) ∧
    (∀ waitStatus2, (thread_join waitStatus2 object).2.1 = true) := by
  constructor
  · simp [thread_join, hj, hw]
  · intro waitStatus2
    by_cases hw2 : waitStatus2 = APR_SUCCESS
    · simp [thread_join, hj, hw2]
    · simp [thread_join, hj, hw2]

/-- C10 witness: a failed wait on a running handle reports the status and a
retry invokes the wait again. -/
theorem thread_join_fail_retries_witness :
    thread_join 11 spawnedThread =
      (spawnedThread, true, LuaResult.error_status 11) ∧
    (∀ waitStatus2, (thread_join waitStatus2 spawnedThread).2.1 = true) :=
  thread_join_fail_retries 11 spawnedThread rfl (by decide)

/-- C9: `detach()` with a succeeding primitive sets the status field to
`TS_DETACH` and pushes boolean true; with a failing primitive it pushes nil
plus the error message and leaves the handle — status field included —
unchanged. -/
theorem thread_detach_outcome (detachStatus : apr_status_t)
    (object : lua_apr_thread_object) :
    (detachStatus = APR_SUCCESS →
      thread_detach detachStatus object =
        ({ object with status := TS_DETACH },
         LuaResult.values [LuaVal.boolean true])) ∧
    (detachStatus ≠ APR_SUCCESS →
      thread_detach detachStatus object =
        (object, LuaResult.error_status detachStatus)) := by
  constructor
  · intro h
    simp [thread_detach, h]
  · intro h
    simp [thread_detach, h]

/-- C9 witness: detaching a running handle succeeds at status 0 and fails
unchanged at status 3. -/
theorem thread_detach_outcome_witness :
    thread_detach APR_SUCCESS spawnedThread =
      ({ spawnedThread with status := TS_DETACH },
       LuaResult.values [LuaVal.boolean true]) ∧
    thread_detach 3 spawnedThread =
      (spawnedThread, LuaResult.error_status 3) :=
  ⟨(thread_detach_outcome APR_SUCCESS spawnedThread).1 rfl,
   (thread_detach_outcome 3 spawnedThread).2 (by decide)⟩

/-- C4 counterexample: `thread_join` has no guard on `TS_DETACH`. Joining a
detached, unjoined handle invokes the underlying wait primitive and — when
that primitive reports success — marks the handle joined, contradicting
that a detached handle is never actually joined and that the wait primitive
is not applied to it. -/
theorem thread_join_detach_counterexample :
    (thread_join APR_SUCCESS detachedThread).2.1 = true ∧
    (thread_join APR_SUCCESS detachedThread).1.joined = true := by
  constructor
  · rfl
  · rfl

/-- C4 amended: `join()` on a detached handle is not rejected; since the
`joined` flag is still false, the underlying wait primitive is applied to
the detached thread. If it fails, join reports nil plus the error message
and leaves the handle unchanged; if it reports success, the handle is
marked joined and join returns boolean false followed by the output bytes
(the status `TS_DETACH` is not `TS_DONE`). -/
theorem thread_join_after_detach (waitStatus : apr_status_t)
    (object : lua_apr_thread_object)
    (hd : object.status = TS_DETACH) (hj : object.joined = false) :
    (thread_join waitStatus object).2.1 = true ∧
    (waitStatus ≠ APR_SUCCESS →
      thread_join waitStatus object =
        (object, true, LuaResult.error_status waitStatus)) ∧
    (waitStatus = APR_SUCCESS →
      (thread_join waitStatus object).1.joined = true ∧
      (thread_join waitStatus object).2.2 =
        LuaResult.values [LuaVal.boolean false, pushOutput object.output]) := by
  refine ⟨?_, ?_, ?_⟩
  · by_cases hw : waitStatus = APR_SUCCESS
    · simp [thread_join, hj, hw]
    · simp [thread_join, hj, hw]
  · intro hw
    simp [thread_join, hj, hw]
  · intro hw
    constructor
    · simp [thread_join, hj, hw]
    · simp [thread_join, hj, hw, joinResults, hd]

/-- C4 amended witness: joining the detached handle with a succeeding wait
primitive invokes the wait and completes the join with boolean false. -/
theorem thread_join_after_detach_witness :
    (thread_join APR_SUCCESS detachedThread).2.1 = true ∧
    (thread_join APR_SUCCESS detachedThread).2.2 =
      LuaResult.values [LuaVal.boolean false, pushOutput detachedThread.output] :=
  ⟨(thread_join_after_detach APR_SUCCESS detachedThread rfl rfl).1,
   ((thread_join_after_detach APR_SUCCESS detachedThread rfl rfl).2.2 rfl).2⟩


/-- Case analysis of `runnerCall`: the two `lua_pcall` outcomes with the
final thread object and appended events of each. -/
theorem runnerCall_shape (env : RunnerEnv) (thread : lua_apr_thread_object)
    (evs : List REvent) :
    (∃ msg, env.callResult = Except.error msg ∧
      runnerCall env thread evs =
        ({ thread with
            status := TS_ERROR
            output := some (CBuffer.errmsg msg) },
         evs ++ [REvent.setStatus TS_RUNNING, REvent.invoke,
                 REvent.writeOutput, REvent.closeState,
                 REvent.setStatus TS_ERROR, REvent.threadExit APR_SUCCESS])) ∨
    (∃ results, env.callResult = Except.ok results ∧
      runnerCall env thread evs =
        ({ thread with
            status := TS_DONE
            output := some (lua_apr_serialize results) },
         evs ++ [REvent.setStatus TS_RUNNING, REvent.invoke,
                 REvent.writeOutput, REvent.closeState,
                 REvent.setStatus TS_DONE, REvent.threadExit APR_SUCCESS])) := by
  rcases h : env.callResult with msg | results
  · exact Or.inl ⟨msg, rfl, by simp [runnerCall, h]⟩
  · exact Or.inr ⟨results, rfl, by simp [runnerCall, h]⟩

/-- Reduction of `thread_runner` to one of its three control paths: failed
`luaL_newstate`, failed recompilation of a source-text function, or the
call path through `runnerCall` (with the compile event when the first input
value was a string). -/
theorem thread_runner_reduces (env : RunnerEnv)
    (thread : lua_apr_thread_object) :
    (env.newstateOk = false ∧
      thread_runner env thread =
        ({ thread with
            status := TS_ERROR
            output := some (CBuffer.errmsg "Failed to create Lua state") },
         [REvent.writeOutput, REvent.setStatus TS_ERROR,
          REvent.threadExit APR_SUCCESS])) ∨
    (∃ diag, env.newstateOk = true ∧ env.compileResult = some diag ∧
      thread_runner env thread =
        ({ thread with
            status := TS_ERROR
            output := some (CBuffer.errmsg diag) },
         runnerSetupEvents ++
           [REvent.compile, REvent.writeOutput, REvent.closeState,
            REvent.setStatus TS_ERROR, REvent.threadExit APR_SUCCESS])) ∨
    (∃ evs1, env.newstateOk = true ∧
      (evs1 = [] ∨ evs1 = [REvent.compile]) ∧
      thread_runner env thread =
        runnerCall env thread (runnerSetupEvents ++ evs1)) := by
  rcases hn : env.newstateOk with _ | _
  · refine Or.inl ⟨rfl, ?_⟩
    simp [thread_runner, hn]
  · rcases hinp : thread.input with _ | ⟨hd, tl⟩
    · refine Or.inr (Or.inr ⟨[], rfl, Or.inl rfl, ?_⟩)
      simp [thread_runner, hn, hinp]
    · cases hd with
      | vnil =>
          refine Or.inr (Or.inr ⟨[], rfl, Or.inl rfl, ?_⟩)
          simp [thread_runner, hn, hinp]
      | boolean b =>
          refine Or.inr (Or.inr ⟨[], rfl, Or.inl rfl, ?_⟩)
          simp [thread_runner, hn, hinp]
      | num n =>
          refine Or.inr (Or.inr ⟨[], rfl, Or.inl rfl, ?_⟩)
          simp [thread_runner, hn, hinp]
      | str s =>
          rcases hcomp : env.compileResult with _ | diag
          · refine Or.inr (Or.inr ⟨[REvent.compile], rfl, Or.inr rfl, ?_⟩)
            simp [thread_runner, hn, hinp, hcomp]
          · refine Or.inr (Or.inl ⟨diag, rfl, rfl, ?_⟩)
            simp [thread_runner, hn, hinp, hcomp]

/-- C3: every execution of the worker ends with the shared status field
holding exactly `TS_DONE` or `TS_ERROR`, the store of that terminal status
happening before the thread exit, and the native thread always exits with
`APR_SUCCESS` whatever logical error was captured as output. -/
theorem thread_runner_terminal (env : RunnerEnv)
    (thread : lua_apr_thread_object) :
    ((thread_runner env thread).1.status = TS_DONE ∨
     (thread_runner env thread).1.status = TS_ERROR) ∧
    ∃ pre, (thread_runner env thread).2 =
      pre ++ [REvent.setStatus (thread_runner env thread).1.status,
              REvent.threadExit APR_SUCCESS] := by
  rcases thread_runner_reduces env thread with ⟨hn, heq⟩ |
    ⟨diag, hn, hc, heq⟩ | ⟨evs1, hn, hevs, heq⟩
  · constructor
    · exact Or.inr (by simp [heq])
    · exact ⟨[REvent.writeOutput], by simp [heq]⟩
  · constructor
    · exact Or.inr (by simp [heq])
    · exact ⟨runnerSetupEvents ++
        [REvent.compile, REvent.writeOutput, REvent.closeState],
        by simp [heq]⟩
  · rcases runnerCall_shape env thread (runnerSetupEvents ++ evs1) with
      ⟨msg, hcall, hr⟩ | ⟨results, hcall, hr⟩
    · constructor
      · exact Or.inr (by simp [heq, hr])
      · exact ⟨(runnerSetupEvents ++ evs1) ++
          [REvent.setStatus TS_RUNNING, REvent.invoke, REvent.writeOutput,
           REvent.closeState],
          by simp [heq, hr]⟩
    · constructor
      · exact Or.inl (by simp [heq, hr])
      · exact ⟨(runnerSetupEvents ++ evs1) ++
          [REvent.setStatus TS_RUNNING, REvent.invoke, REvent.writeOutput,
           REvent.closeState],
          by simp [heq, hr]⟩

/-- A `thread_runner` environment in which everything succeeds and the
thread function returns (1, "two", true). -/
def runnerEnvOk : RunnerEnv :=
  { newstateOk := true
    compileResult := none
    callResult := Except.ok
      [LuaVal.num 1, LuaVal.str "two", LuaVal.boolean true] }

/-- C7 counterexample: on a successful execution returning (1, "two", true)
the output buffer holds the serialization of the results alone — it does
not hold the serialization of the tuple {true, 1, "two", true} with the
success flag, refuting the claim that the flag is stored together with the
results in the output buffer. -/
theorem thread_runner_output_counterexample :
    (thread_runner runnerEnvOk spawnedThread).1.status = TS_DONE ∧
    (thread_runner runnerEnvOk spawnedThread).1.output =
      some (lua_apr_serialize
        [LuaVal.num 1, LuaVal.str "two", LuaVal.boolean true]) ∧
    (thread_runner runnerEnvOk spawnedThread).1.output ≠
      some (lua_apr_serialize
        [LuaVal.boolean true, LuaVal.num 1, LuaVal.str "two",
         LuaVal.boolean true]) := by
  refine ⟨rfl, rfl, ?_⟩
  decide

/-- C7 amended: the output buffer is written exactly once per worker
execution; on a successful run it holds the serialized results alone (the
success flag is prepended later by `thread_join`, not stored), and on any
failing run it holds the captured error string directly with no wrapping. -/
theorem thread_runner_output_discipline (env : RunnerEnv)
    (thread : lua_apr_thread_object) :
    (thread_runner env thread).2.count REvent.writeOutput = 1 ∧
    (∀ results, env.callResult = Except.ok results →
      (thread_runner env thread).1.status = TS_DONE →
      (thread_runner env thread).1.output = some (lua_apr_serialize results)) ∧
    ((thread_runner env thread).1.status = TS_ERROR →
      ∃ msg, (thread_runner env thread).1.output =
        some (CBuffer.errmsg msg)) := by
  rcases thread_runner_reduces env thread with ⟨hn, heq⟩ |
    ⟨diag, hn, hc, heq⟩ | ⟨evs1, hn, hevs, heq⟩
  · refine ⟨by simp [heq], ?_, ?_⟩
    · intro results hres hdone
      simp [heq] at hdone
    · intro herr
      exact ⟨"Failed to create Lua state", by simp [heq]⟩
  · refine ⟨?_, ?_, ?_⟩
    · simp [heq, runnerSetupEvents]
    · intro results hres hdone
      simp [heq] at hdone
    · intro herr
      exact ⟨diag, by simp [heq]⟩
  · rcases runnerCall_shape env thread (runnerSetupEvents ++ evs1) with
      ⟨msg, hcall, hr⟩ | ⟨results0, hcall, hr⟩
    · refine ⟨?_, ?_, ?_⟩
      · rcases hevs with h1 | h1 <;> subst h1 <;> rw [heq, hr] <;>
          simp [runnerSetupEvents, List.count_append, List.count_cons]
      · intro results hres hdone
        simp [heq, hr] at hdone
      · intro herr
        exact ⟨msg, by simp [heq, hr]⟩
    · refine ⟨?_, ?_, ?_⟩
      · rcases hevs with h1 | h1 <;> subst h1 <;> rw [heq, hr] <;>
          simp [runnerSetupEvents, List.count_append, List.count_cons]
      · intro results hres hdone
        rw [hres] at hcall
        cases hcall
        simp [heq, hr]
      · intro herr
        simp [heq, hr] at herr

/-- C7 amended witness: on the successful run returning (1, "two", true)
the output buffer holds the serialized results alone, and the output was
written exactly once. -/
theorem thread_runner_output_discipline_witness :
    (thread_runner runnerEnvOk spawnedThread).2.count REvent.writeOutput = 1 ∧
    (thread_runner runnerEnvOk spawnedThread).1.output =
      some (lua_apr_serialize
        [LuaVal.num 1, LuaVal.str "two", LuaVal.boolean true]) :=
  ⟨(thread_runner_output_discipline runnerEnvOk spawnedThread).1,
   (thread_runner_output_discipline runnerEnvOk spawnedThread).2.1
     [LuaVal.num 1, LuaVal.str "two", LuaVal.boolean true] rfl rfl⟩

/-- C8: whenever the worker writes `TS_RUNNING` to the shared status field,
its trace begins with creating the Lua state, loading the libraries,
applying the configuration strings and unserializing the input — so the
`TS_RUNNING` store comes only after interpreter construction,
configuration and input decoding; and `thread_status` of a handle whose
status is `TS_INIT` or `TS_RUNNING` is never the terminal "done" or
"error" string. -/
theorem thread_runner_running_after_setup (env : RunnerEnv)
    (thread : lua_apr_thread_object)
    (h : REvent.setStatus TS_RUNNING ∈ (thread_runner env thread).2) :
    (∃ rest, (thread_runner env thread).2 =
      REvent.createState :: REvent.openLibs :: REvent.setConfig ::
        REvent.unserializeInput :: rest) ∧
    (∀ object : lua_apr_thread_object,
      object.status = TS_INIT ∨ object.status = TS_RUNNING →
      thread_status object ≠ "done" ∧ thread_status object ≠ "error") := by
  constructor
  · rcases thread_runner_reduces env thread with ⟨hn, heq⟩ |
      ⟨diag, hn, hc, heq⟩ | ⟨evs1, hn, hevs, heq⟩
    · rw [heq] at h
      simp at h
    · exact ⟨[REvent.compile, REvent.writeOutput, REvent.closeState,
        REvent.setStatus TS_ERROR, REvent.threadExit APR_SUCCESS],
        by simp [heq, runnerSetupEvents]⟩
    · rcases runnerCall_shape env thread (runnerSetupEvents ++ evs1) with
        ⟨msg, hcall, hr⟩ | ⟨results, hcall, hr⟩
      · exact ⟨evs1 ++ [REvent.setStatus TS_RUNNING, REvent.invoke,
          REvent.writeOutput, REvent.closeState, REvent.setStatus TS_ERROR,
          REvent.threadExit APR_SUCCESS],
          by rw [heq, hr]; simp [runnerSetupEvents]⟩
      · exact ⟨evs1 ++ [REvent.setStatus TS_RUNNING, REvent.invoke,
          REvent.writeOutput, REvent.closeState, REvent.setStatus TS_DONE,
          REvent.threadExit APR_SUCCESS],
          by rw [heq, hr]; simp [runnerSetupEvents]⟩
  · intro object hobj
    unfold thread_status
    rcases hobj with h1 | h1 <;> rw [h1] <;> exact ⟨by decide, by decide⟩

/-- C8 witness: in the successful concrete run the `TS_RUNNING` store is in
the trace, and the trace begins with the four setup events. -/
theorem thread_runner_running_after_setup_witness :
    (∃ rest, (thread_runner runnerEnvOk spawnedThread).2 =
      REvent.createState :: REvent.openLibs :: REvent.setConfig ::
        REvent.unserializeInput :: rest) ∧
    (∀ object : lua_apr_thread_object,
      object.status = TS_INIT ∨ object.status = TS_RUNNING →
      thread_status object ≠ "done" ∧ thread_status object ≠ "error") :=
  thread_runner_running_after_setup runnerEnvOk spawnedThread (by decide)

/-- C5: whenever any step of spawn fails — serialization, handle
allocation, memory-pool creation, thread-attribute creation or native
thread creation — no handle is returned (the result is nil plus an error
for an APR status code) and an allocated handle has been destroyed, so
nothing leaks. -/
theorem lua_apr_thread_fail_no_leak (env : SpawnEnv) (args : List LuaVal)
    (h : env.serializeOk = false ∨ env.allocOk = false ∨
         env.poolStatus ≠ APR_SUCCESS ∨ env.attrStatus ≠ APR_SUCCESS ∨
         env.createStatus ≠ APR_SUCCESS) :
    (∃ s, (lua_apr_thread env args).result = Except.error s) ∧
    ((lua_apr_thread env args).allocated = true →
      (lua_apr_thread env args).destroyed = true) := by
  obtain ⟨sOk, aOk, pSt, tSt, cSt⟩ := env
  cases sOk with
  | false =>
      exact ⟨⟨SERIALIZE_FAILED, by simp [lua_apr_thread]⟩,
        by simp [lua_apr_thread]⟩
  | true =>
      cases aOk with
      | false =>
          exact ⟨⟨APR_ENOMEM, by simp [lua_apr_thread]⟩,
            by simp [lua_apr_thread]⟩
      | true =>
          by_cases h3 : pSt = APR_SUCCESS
          · by_cases h4 : tSt = APR_SUCCESS
            · by_cases h5 : cSt = APR_SUCCESS
              · exfalso
                rcases h with h | h | h | h | h <;> simp_all
              · exact ⟨⟨cSt, by simp [lua_apr_thread, h3, h4, h5]⟩,
                  by simp [lua_apr_thread, h3, h4, h5]⟩
            · exact ⟨⟨tSt, by simp [lua_apr_thread, h3, h4]⟩,
                by simp [lua_apr_thread, h3, h4]⟩
          · exact ⟨⟨pSt, by simp [lua_apr_thread, h3]⟩,
              by simp [lua_apr_thread, h3]⟩

/-- A spawn environment whose native thread creation fails. -/
def spawnEnvCreateFail : SpawnEnv :=
  { serializeOk := true
    allocOk := true
    poolStatus := APR_SUCCESS
    attrStatus := APR_SUCCESS
    createStatus := 11 }

/-- C5 witness: when `apr_thread_create` fails with status 11, spawn
returns no handle and the allocated handle was destroyed. -/
theorem lua_apr_thread_fail_no_leak_witness :
    (∃ s, (lua_apr_thread spawnEnvCreateFail []).result = Except.error s) ∧
    ((lua_apr_thread spawnEnvCreateFail []).allocated = true →
      (lua_apr_thread spawnEnvCreateFail []).destroyed = true) :=
  lua_apr_thread_fail_no_leak spawnEnvCreateFail []
    (Or.inr (Or.inr (Or.inr (Or.inr (by decide)))))

/-- C6: a handle reclaimed by the collector without an explicit join: when
its status is not `TS_DETACH`, the finalizer logs the implicit-join
diagnostic and performs the blocking join before `thread_destroy` releases
the handle; when its status is `TS_DETACH`, it never invokes the wait
primitive and only logs the recorded output (an error message, when one
was recorded) before releasing the handle's own bookkeeping memory. -/
theorem thread_gc_contract (waitStatus : apr_status_t)
    (thread : lua_apr_thread_object) (hj : thread.joined = false) :
    (thread.status ≠ TS_DETACH →
      GcEvent.logImplicitJoin ∈ thread_gc waitStatus thread ∧
      ∃ mid, thread_gc waitStatus thread =
        GcEvent.logImplicitJoin :: GcEvent.waitThread ::
          (mid ++ [GcEvent.destroy])) ∧
    (thread.status = TS_DETACH →
      thread_gc waitStatus thread =
        [GcEvent.logImplicitJoin, GcEvent.logDetachOutput thread.output,
         GcEvent.destroy] ∧
      GcEvent.waitThread ∉ thread_gc waitStatus thread) := by
  constructor
  · intro hd
    by_cases hw : waitStatus = APR_SUCCESS
    · by_cases he : thread.status = TS_ERROR
      · exact ⟨by simp [thread_gc, hj, hd, hw, he],
          ⟨[GcEvent.logWorkerError thread.output],
           by simp [thread_gc, hj, hd, hw, he]⟩⟩
      · exact ⟨by simp [thread_gc, hj, hd, hw, he],
          ⟨[], by simp [thread_gc, hj, hd, hw, he]⟩⟩
    · exact ⟨by simp [thread_gc, hj, hd, hw],
        ⟨[GcEvent.logJoinFailed waitStatus],
         by simp [thread_gc, hj, hd, hw]⟩⟩
  · intro hd
    refine ⟨by simp [thread_gc, hj, hd], ?_⟩
    simp [thread_gc, hj, hd]

/-- C6 witness: collecting the unjoined handle that ended in `TS_ERROR`
joins it before destroying it, and collecting the detached handle logs its
output and destroys it without waiting. -/
theorem thread_gc_contract_witness :
    (GcEvent.logImplicitJoin ∈ thread_gc APR_SUCCESS errorThread ∧
      ∃ mid, thread_gc APR_SUCCESS errorThread =
        GcEvent.logImplicitJoin :: GcEvent.waitThread ::
          (mid ++ [GcEvent.destroy])) ∧
    (thread_gc APR_SUCCESS detachedThread =
      [GcEvent.logImplicitJoin, GcEvent.logDetachOutput detachedThread.output,
       GcEvent.destroy] ∧
     GcEvent.waitThread ∉ thread_gc APR_SUCCESS detachedThread) :=
  ⟨(thread_gc_contract APR_SUCCESS errorThread rfl).1 (by decide),
   (thread_gc_contract APR_SUCCESS detachedThread rfl).2 rfl⟩
